import Mathlib

/-!
Shallow embedding of the rsyslog Mbed TLS network-stream driver
(src/runtime/nsd_mbedtls.c) and its readiness multiplexer
(src/runtime/nsdsel_mbedtls.c).

External library calls (mbedtls_ssl_read, mbedtls_ssl_write,
mbedtls_ssl_close_notify, mbedtls_ssl_handshake, the nested nsd_ptcp
driver, strdup allocation) are modelled by outcome parameters: each
embedded operation takes the value(s) the foreign call would return and
reproduces the C control flow on them.
-/

namespace NsdMbedtls

/- Mbed TLS status codes, values from mbedtls/ssl.h (MBEDTLS_ERR_SSL_WANT_READ
is -0x6900, MBEDTLS_ERR_SSL_WANT_WRITE is -0x6880,
MBEDTLS_ERR_SSL_PEER_CLOSE_NOTIFY is -0x7880). -/

def MBEDTLS_ERR_SSL_WANT_READ : Int := -26880

def MBEDTLS_ERR_SSL_WANT_WRITE : Int := -26752

def MBEDTLS_ERR_SSL_PEER_CLOSE_NOTIFY : Int := -30848

/- Mbed TLS verification modes, values from mbedtls/ssl.h. -/

def MBEDTLS_SSL_VERIFY_NONE : Int := 0

def MBEDTLS_SSL_VERIFY_REQUIRED : Int := 2

/- rsRetVal sentinel codes. rsyslog.h is not among the given sources; the
development relies only on these codes being pairwise distinct, with
RS_RET_OK = 0 and all error codes negative, which is the rsyslog convention. -/

def RS_RET_OK : Int := 0

def RS_RET_OUT_OF_MEMORY : Int := -6

def RS_RET_RETRY : Int := -2105

def RS_RET_CLOSED : Int := -2103

def RS_RET_EOF : Int := -2104

def RS_RET_RCV_ERR : Int := -2162

def RS_RET_CONNECTION_ABORTREQ : Int := -2106

def RS_RET_VALUE_NOT_SUPPORTED : Int := -2118

def RS_RET_TLS_HANDSHAKE_ERR : Int := -2180

def RS_RET_INVALID_DRVR_MODE : Int := -2171

/-- The nsd_mbedtls_t driver object (struct nsd_mbedtls_s in nsd_mbedtls.h),
restricted to the fields the embedded operations read or write.  The foreign
mbedtls_ssl_context is represented by the one observation the code makes of
it outside the modelled library calls: mbedtls_ssl_get_bytes_avail, the
number of decrypted bytes buffered in the session (`sslBytesAvail`).
`pTcpPresent` stands for pTcp being non-NULL. -/
structure Nsd where
  iMode : Int
  bAbortConn : Bool
  authMode : Int
  bChkName : Bool
  bHaveSess : Bool
  pTcpPresent : Bool
  sslBytesAvail : Nat
  pPermPeer : Option String
  pszCAFile : Option String
  pszCRLFile : Option String
  pszKeyFile : Option String
  pszCertFile : Option String
  DrvrVerifyDepth : Int
  deriving Repr, DecidableEq

/-- Rcv (nsd_mbedtls.c lines 789-832).  `ptcpResult` is the pair
(return code, length written to *pLenBuf) that nsd_ptcp.Rcv would produce
in plaintext mode; `sslReadResult` is the value mbedtls_ssl_read would
return in TLS mode; `lenIn` is the caller's *pLenBuf on entry.  The result
is the pair (iRet, *pLenBuf on exit); the final `if` is the finalize_it
block that forces *pLenBuf to zero on every outcome other than
RS_RET_OK and RS_RET_RETRY. -/
def Rcv (pThis : Nsd) (ptcpResult : Int × Int) (sslReadResult : Int)
    (lenIn : Int) : Int × Int :=
  let core :=
    if pThis.bAbortConn then (RS_RET_CONNECTION_ABORTREQ, lenIn)
    else if pThis.iMode = 0 then ptcpResult
    else
      let n := sslReadResult
      if n = MBEDTLS_ERR_SSL_WANT_READ ∨ n = MBEDTLS_ERR_SSL_WANT_WRITE then
        (RS_RET_RETRY, lenIn)
      else if n = MBEDTLS_ERR_SSL_PEER_CLOSE_NOTIFY then (RS_RET_CLOSED, lenIn)
      else if n < 0 then (RS_RET_RCV_ERR, lenIn)
      else if n = 0 then (RS_RET_EOF, lenIn)
      else (RS_RET_OK, n)
  if core.1 ≠ RS_RET_OK ∧ core.1 ≠ RS_RET_RETRY then (core.1, 0) else core

/-- Outcome of the mbedtls_ssl_write retry loop in Send. -/
inductive SendLoopResult where
  | written (n : Int)
  | failed (code : Int)
  | spinning
  deriving Repr, DecidableEq

/-- The `while((iSent = mbedtls_ssl_write(...)) <= 0)` loop of Send
(nsd_mbedtls.c lines 857-862), driven by the list of successive values
the library call returns.  A positive value exits the loop as the write
count; a would-block value retries; any other value (ABORT_FINALIZE(iSent))
becomes the function's return code.  `spinning` marks the loop still
retrying after the supplied outcomes are exhausted. -/
def sendLoop : List Int → SendLoopResult
  | [] => .spinning
  | r :: rest =>
    if r > 0 then .written r
    else if r = MBEDTLS_ERR_SSL_WANT_READ ∨ r = MBEDTLS_ERR_SSL_WANT_WRITE then
      sendLoop rest
    else .failed r

/-- Send (nsd_mbedtls.c lines 840-867).  `ptcpResult` is what nsd_ptcp.Send
would produce in plaintext mode, `writeResults` the successive values of
mbedtls_ssl_write in TLS mode, `lenIn` the caller's *pLenBuf on entry.
Returns none while the retry loop is still spinning, otherwise
some (iRet, *pLenBuf on exit).  Send has no zeroing finalize block. -/
def Send (pThis : Nsd) (ptcpResult : Int × Int) (writeResults : List Int)
    (lenIn : Int) : Option (Int × Int) :=
  if pThis.bAbortConn then some (RS_RET_CONNECTION_ABORTREQ, lenIn)
  else if pThis.iMode = 0 then some ptcpResult
  else
    match sendLoop writeResults with
    | .written n => some (RS_RET_OK, n)
    | .failed code => some (code, lenIn)
    | .spinning => none

/-- Abort (nsd_mbedtls.c lines 612-625).  The Bool records whether
nsd_ptcp.Abort was invoked on the nested transport; the driver state is
returned unchanged because the body touches no nsd_mbedtls field. -/
def Abort (pThis : Nsd) : Nsd × Bool :=
  if pThis.iMode = 0 then (pThis, true) else (pThis, false)

/-- ASCII lower-casing of one character, as C tolower does in the default
locale on the characters that can occur in the option strings. -/
def asciiLower (c : Char) : Char :=
  if 'A' ≤ c ∧ c ≤ 'Z' then Char.ofNat (c.toNat + 32) else c

/-- The equality test performed by strcasecmp(a, b) == 0. -/
def strCaseEq (a b : String) : Bool :=
  a.data.map asciiLower = b.data.map asciiLower

/-- SetMode (nsd_mbedtls.c lines 269-287): only modes 0 and 1 are accepted;
anything else fails with RS_RET_INVALID_DRVR_MODE and leaves iMode alone. -/
def SetMode (pThis : Nsd) (mode : Int) : Int × Nsd :=
  if mode ≠ 0 ∧ mode ≠ 1 then (RS_RET_INVALID_DRVR_MODE, pThis)
  else (RS_RET_OK, { pThis with iMode := mode })

/-- SetAuthMode (nsd_mbedtls.c lines 296-323).  Note that the C code clears
pThis->bChkName before examining the mode string, so the clearing happens
on the rejection path as well. -/
def SetAuthMode (pThis : Nsd) (mode : Option String) : Int × Nsd :=
  let st1 := { pThis with bChkName := false }
  match mode with
  | none =>
    (RS_RET_OK, { st1 with authMode := MBEDTLS_SSL_VERIFY_REQUIRED, bChkName := true })
  | some m =>
    if strCaseEq m "x509/name" then
      (RS_RET_OK, { st1 with authMode := MBEDTLS_SSL_VERIFY_REQUIRED, bChkName := true })
    else if strCaseEq m "x509/certvalid" then
      (RS_RET_OK, { st1 with authMode := MBEDTLS_SSL_VERIFY_REQUIRED })
    else if strCaseEq m "anon" then
      (RS_RET_OK, { st1 with authMode := MBEDTLS_SSL_VERIFY_NONE })
    else (RS_RET_VALUE_NOT_SUPPORTED, st1)

/-- SetPermitExpiredCerts (nsd_mbedtls.c lines 329-345): only NULL or a case
variant of "off" is accepted; the driver state is never modified. -/
def SetPermitExpiredCerts (pThis : Nsd) (mode : Option String) : Int × Nsd :=
  match mode with
  | none => (RS_RET_OK, pThis)
  | some m =>
    if ¬ strCaseEq m "off" then (RS_RET_VALUE_NOT_SUPPORTED, pThis)
    else (RS_RET_OK, pThis)

/-- The handshake check shared by Connect (nsd_mbedtls.c lines 934-940) and
AcceptConnReq (lines 764-771): a result other than 0, WANT_READ or
WANT_WRITE aborts with RS_RET_TLS_HANDSHAKE_ERR and leaves bHaveSess
untouched; otherwise bHaveSess is set. -/
def handshakeFinish (pThis : Nsd) (hsRet : Int) : Int × Nsd :=
  if hsRet ≠ 0 ∧ hsRet ≠ MBEDTLS_ERR_SSL_WANT_READ ∧
      hsRet ≠ MBEDTLS_ERR_SSL_WANT_WRITE then
    (RS_RET_TLS_HANDSHAKE_ERR, pThis)
  else (RS_RET_OK, { pThis with bHaveSess := true })

/-- Outcomes of the external calls made by Connect, in source order
(nsd_mbedtls.c lines 882-945).  Each Int field is the return value of the
corresponding CHKiRet-guarded call; `haveKeyCert` is the value of
bHaveKey && bHaveCert after mbedtlsInitCred, guarding the
mbedtls_ssl_conf_own_cert call. -/
structure ConnectEnv where
  initSessionRet : Int
  initCredRet : Int
  ptcpConnectRet : Int
  configDefaultsRet : Int
  haveKeyCert : Bool
  confOwnCertRet : Int
  sslSetupRet : Int
  setHostnameRet : Int
  getSockRet : Int
  handshakeRet : Int
  deriving Repr, DecidableEq

/-- Connect (nsd_mbedtls.c lines 882-945): the CHKiRet chain, the
plaintext-mode early FINALIZE, and the final handshake check.  Returns
(iRet, driver state on exit). -/
def Connect (pThis : Nsd) (env : ConnectEnv) : Int × Nsd :=
  if env.initSessionRet ≠ 0 then (env.initSessionRet, pThis)
  else if env.initCredRet ≠ 0 then (env.initCredRet, pThis)
  else if env.ptcpConnectRet ≠ 0 then (env.ptcpConnectRet, pThis)
  else if pThis.iMode = 0 then (RS_RET_OK, pThis)
  else if env.configDefaultsRet ≠ 0 then (env.configDefaultsRet, pThis)
  else if env.haveKeyCert ∧ env.confOwnCertRet ≠ 0 then (env.confOwnCertRet, pThis)
  else if env.sslSetupRet ≠ 0 then (env.sslSetupRet, pThis)
  else if env.setHostnameRet ≠ 0 then (env.setHostnameRet, pThis)
  else if env.getSockRet ≠ 0 then (env.getSockRet, pThis)
  else handshakeFinish pThis env.handshakeRet

/-- Outcomes of the external calls made by AcceptConnReq, in source order
(nsd_mbedtls.c lines 695-780).  The strdup*Ok fields are the CHKmalloc
outcomes for the property strings copied from the listener; each is
consulted only when the listener actually holds that string. -/
structure AcceptEnv where
  constructRet : Int
  ptcpDestructRet : Int
  ptcpAcceptRet : Int
  strdupPermPeerOk : Bool
  strdupCertOk : Bool
  strdupKeyOk : Bool
  strdupCAOk : Bool
  strdupCRLOk : Bool
  initSessionRet : Int
  initCredRet : Int
  configDefaultsRet : Int
  haveKeyCert : Bool
  confOwnCertRet : Int
  sslSetupRet : Int
  setHostnameRet : Int
  getSockRet : Int
  handshakeRet : Int
  deriving Repr, DecidableEq

/-- A freshly constructed nsd_mbedtls object (BEGINobjConstruct at
nsd_mbedtls.c line 217: calloc zeroes every field, then the nested ptcp
transport is constructed). -/
def freshNsd : Nsd :=
  { iMode := 0, bAbortConn := false, authMode := 0, bChkName := false,
    bHaveSess := false, pTcpPresent := true, sslBytesAvail := 0,
    pPermPeer := none, pszCAFile := none, pszCRLFile := none,
    pszKeyFile := none, pszCertFile := none, DrvrVerifyDepth := 0 }

/-- Result of AcceptConnReq as the caller observes it: the return code,
whether *ppNew was assigned (and to what), and whether the partially built
new driver was destroyed in the finalize_it block. -/
structure AcceptResult where
  iRet : Int
  assigned : Option Nsd
  newDestroyed : Bool
  deriving Repr, DecidableEq

/-- The new driver after the property-copy block of AcceptConnReq
(nsd_mbedtls.c lines 713-727). -/
def acceptCopyProps (pThis : Nsd) : Nsd :=
  { freshNsd with
    authMode := pThis.authMode, bChkName := pThis.bChkName,
    pPermPeer := pThis.pPermPeer, DrvrVerifyDepth := pThis.DrvrVerifyDepth,
    pszCertFile := pThis.pszCertFile, pszKeyFile := pThis.pszKeyFile,
    pszCAFile := pThis.pszCAFile, pszCRLFile := pThis.pszCRLFile,
    iMode := pThis.iMode }

/-- AcceptConnReq (nsd_mbedtls.c lines 695-780).  On the very first failure
(construct) pNew is still NULL, so the finalize_it destruct is skipped; on
every later failure pNew is non-NULL and destroyed there.  *ppNew is only
assigned on the plaintext early exit and after a non-fatal handshake. -/
def AcceptConnReq (pThis : Nsd) (env : AcceptEnv) : AcceptResult :=
  if env.constructRet ≠ 0 then ⟨env.constructRet, none, false⟩
  else if env.ptcpDestructRet ≠ 0 then ⟨env.ptcpDestructRet, none, true⟩
  else if env.ptcpAcceptRet ≠ 0 then ⟨env.ptcpAcceptRet, none, true⟩
  else if pThis.iMode = 0 then ⟨RS_RET_OK, some freshNsd, false⟩
  else if pThis.pPermPeer.isSome ∧ ¬ env.strdupPermPeerOk then
    ⟨RS_RET_OUT_OF_MEMORY, none, true⟩
  else if pThis.pszCertFile.isSome ∧ ¬ env.strdupCertOk then
    ⟨RS_RET_OUT_OF_MEMORY, none, true⟩
  else if pThis.pszKeyFile.isSome ∧ ¬ env.strdupKeyOk then
    ⟨RS_RET_OUT_OF_MEMORY, none, true⟩
  else if pThis.pszCAFile.isSome ∧ ¬ env.strdupCAOk then
    ⟨RS_RET_OUT_OF_MEMORY, none, true⟩
  else if pThis.pszCRLFile.isSome ∧ ¬ env.strdupCRLOk then
    ⟨RS_RET_OUT_OF_MEMORY, none, true⟩
  else if env.initSessionRet ≠ 0 then ⟨env.initSessionRet, none, true⟩
  else if env.initCredRet ≠ 0 then ⟨env.initCredRet, none, true⟩
  else if env.configDefaultsRet ≠ 0 then ⟨env.configDefaultsRet, none, true⟩
  else if env.haveKeyCert ∧ env.confOwnCertRet ≠ 0 then
    ⟨env.confOwnCertRet, none, true⟩
  else if env.sslSetupRet ≠ 0 then ⟨env.sslSetupRet, none, true⟩
  else if env.setHostnameRet ≠ 0 then ⟨env.setHostnameRet, none, true⟩
  else if env.getSockRet ≠ 0 then ⟨env.getSockRet, none, true⟩
  else if env.handshakeRet ≠ 0 ∧ env.handshakeRet ≠ MBEDTLS_ERR_SSL_WANT_READ ∧
      env.handshakeRet ≠ MBEDTLS_ERR_SSL_WANT_WRITE then
    ⟨RS_RET_TLS_HANDSHAKE_ERR, none, true⟩
  else
    ⟨RS_RET_OK, some { acceptCopyProps pThis with bHaveSess := true }, false⟩

/-- Is a close-notify outcome one of the two would-block codes retried by
the loop in mbedtlsEndSess? -/
def isWouldBlock (r : Int) : Bool :=
  r = MBEDTLS_ERR_SSL_WANT_READ ∨ r = MBEDTLS_ERR_SSL_WANT_WRITE

/-- The `while((mbedtlsRet = mbedtls_ssl_close_notify(...)) != 0)` loop of
mbedtlsEndSess (nsd_mbedtls.c lines 204-209), driven by the stream `f` of
successive close-notify outcomes, starting at call index `i`, observed for
`fuel` iterations.  The loop exits with `some r` when iteration i yields
r = 0 (graceful close) or a non-would-block r (close abandoned); it keeps
calling close_notify on a would-block outcome.  `none` means the loop has
not exited within `fuel` iterations. -/
def closeNotifyRun (f : Nat → Int) : Nat → Nat → Option Int
  | _, 0 => none
  | i, fuel + 1 =>
    let r := f i
    if r = 0 then some 0
    else if isWouldBlock r then closeNotifyRun f (i + 1) fuel
    else some r

/-- The close-notify loop exits after finitely many iterations on the
outcome stream `f`. -/
def closeLoopStops (f : Nat → Int) : Prop :=
  ∃ fuel, (closeNotifyRun f 0 fuel).isSome

/-- mbedtlsEndSess (nsd_mbedtls.c lines 197-214) as a state transformer:
when a session is active the close-notify loop runs and bHaveSess is
cleared; with no session the call is a no-op. -/
def mbedtlsEndSess (pThis : Nsd) : Nsd :=
  if pThis.bHaveSess then { pThis with bHaveSess := false } else pThis

/-- What nsd_mbedtlsDestruct releases, beyond the final driver state:
whether nsd_ptcp.Destruct ran on the nested transport and whether the
mbedtls library objects (entropy, ctr_drbg, certs, key, crl, config, ssl)
were freed. -/
structure DestructResult where
  final : Nsd
  tcpDestroyed : Bool
  tlsObjectsFreed : Bool
  deriving Repr, DecidableEq

/-- nsd_mbedtlsDestruct (nsd_mbedtls.c lines 237-262): ends the session
first (TLS mode only), destroys the nested transport when present, frees
the owned credential-path and peer strings, then frees every mbedtls
object. -/
def nsd_mbedtlsDestruct (pThis : Nsd) : DestructResult :=
  let st1 := if pThis.iMode = 1 then mbedtlsEndSess pThis else pThis
  let st2 := { st1 with
    pTcpPresent := false
    pszCAFile := none
    pszCRLFile := none
    pszKeyFile := none
    pszCertFile := none
    pPermPeer := none }
  { final := st2, tcpDestroyed := pThis.pTcpPresent, tlsObjectsFreed := true }

/- ----- the readiness multiplexer, nsdsel_mbedtls.c ----- -/

/-- nsdsel_waitOp_t (nsd.h): what kind of readiness the caller waits for. -/
inductive WaitOp where
  | rd
  | wr
  | rdwr
  deriving Repr, DecidableEq

/-- The nsdsel_mbedtls_t object (nsdsel_mbedtls.h): the counter of
descriptors whose read-readiness is already known from buffered TLS
bytes.  The nested ptcp multiplexer is an external collaborator. -/
structure Nsdsel where
  iBufferRcvReady : Int
  deriving Repr, DecidableEq

/-- Add (nsdsel_mbedtls.c lines 62-89).  Returns the new multiplexer state
and whether the registration was forwarded to nsdsel_ptcp.Add; a TLS-mode
driver waiting for read with buffered decrypted bytes is counted as a
dummy registration instead. -/
def Add (pThis : Nsdsel) (pNsd : Nsd) (waitOp : WaitOp) : Nsdsel × Bool :=
  if pNsd.iMode = 1 ∧ waitOp = WaitOp.rd ∧ pNsd.sslBytesAvail ≠ 0 then
    ({ iBufferRcvReady := pThis.iBufferRcvReady + 1 }, false)
  else (pThis, true)

/-- Select (nsdsel_mbedtls.c lines 94-111).  `ptcpSelect` is the pair
(return code, *piNumReady) that nsdsel_ptcp.Select would produce.  The
result is (iRet, *piNumReady, whether the nested OS wait was invoked). -/
def Select (pThis : Nsdsel) (ptcpSelect : Int × Int) : Int × Int × Bool :=
  if pThis.iBufferRcvReady > 0 then (RS_RET_OK, pThis.iBufferRcvReady, false)
  else (ptcpSelect.1, ptcpSelect.2, true)

/-- IsReady (nsdsel_mbedtls.c lines 114-148).  `ptcpReady` is the readiness
nsdsel_ptcp.IsReady would report.  The result is (*pbIsReady, new
multiplexer state, whether the nested readiness check was consulted). -/
def IsReady (pThis : Nsdsel) (pNsd : Nsd) (waitOp : WaitOp)
    (ptcpReady : Bool) : Bool × Nsdsel × Bool :=
  if pNsd.iMode = 1 ∧ waitOp = WaitOp.rd ∧ pNsd.sslBytesAvail > 0 then
    (true, { iBufferRcvReady := pThis.iBufferRcvReady - 1 }, false)
  else if pThis.iBufferRcvReady ≠ 0 then (false, pThis, false)
  else (ptcpReady, pThis, true)

/-- A driver that Add counts as a dummy (buffered) registration for a
read wait. -/
def isBuffered (d : Nsd) : Bool :=
  d.iMode = 1 ∧ d.sslBytesAvail ≠ 0

/-- Registering a whole round of drivers for read-readiness. -/
def addAll (pThis : Nsdsel) (ds : List Nsd) : Nsdsel :=
  ds.foldl (fun s d => (Add s d WaitOp.rd).1) pThis

/-- Querying IsReady for read on a whole list of drivers, keeping only the
state evolution of the multiplexer. -/
def drainAll (pThis : Nsdsel) (ds : List Nsd) : Nsdsel :=
  ds.foldl (fun s d => (IsReady s d WaitOp.rd false).2.1) pThis

/-- A TLS-mode driver as configured by SetMode 1 on a fresh object. -/
def tlsDriver : Nsd := { freshNsd with iMode := 1 }

/-- A driver configured for x509/name authentication: verification required
and the certificate-name check enabled. -/
def nameCheckDriver : Nsd :=
  { freshNsd with authMode := MBEDTLS_SSL_VERIFY_REQUIRED, bChkName := true }

/-- A Connect run whose external steps all succeed and whose handshake
returns the fatal alert code -30592. -/
def connectEnvFatalHs : ConnectEnv :=
  { initSessionRet := 0, initCredRet := 0, ptcpConnectRet := 0,
    configDefaultsRet := 0, haveKeyCert := false, confOwnCertRet := 0,
    sslSetupRet := 0, setHostnameRet := 0, getSockRet := 0,
    handshakeRet := -30592 }

/-- An AcceptConnReq run whose external steps all succeed, handshake
included. -/
def acceptEnvAllOk : AcceptEnv :=
  { constructRet := 0, ptcpDestructRet := 0, ptcpAcceptRet := 0,
    strdupPermPeerOk := true, strdupCertOk := true, strdupKeyOk := true,
    strdupCAOk := true, strdupCRLOk := true, initSessionRet := 0,
    initCredRet := 0, configDefaultsRet := 0, haveKeyCert := false,
    confOwnCertRet := 0, sslSetupRet := 0, setHostnameRet := 0,
    getSockRet := 0, handshakeRet := 0 }

/-- An AcceptConnReq run that fails at credential parsing
(mbedtlsInitCred returning a parse error) with all earlier steps
succeeding. -/
def acceptEnvBadCred : AcceptEnv :=
  { acceptEnvAllOk with initCredRet := -9985 }

/- ----- helper lemmas ----- -/

theorem strCaseEq_iff (a b : String) :
    strCaseEq a b = true ↔ a.data.map asciiLower = b.data.map asciiLower := by
  simp [strCaseEq]

theorem sendLoop_wouldblock_skip (pre l : List Int)
    (hpre : ∀ r ∈ pre, r = MBEDTLS_ERR_SSL_WANT_READ ∨
      r = MBEDTLS_ERR_SSL_WANT_WRITE) :
    sendLoop (pre ++ l) = sendLoop l := by
  induction pre with
  | nil => rfl
  | cons r pre ih =>
    have hr := hpre r (by simp)
    have hrest : ∀ x ∈ pre, x = MBEDTLS_ERR_SSL_WANT_READ ∨
        x = MBEDTLS_ERR_SSL_WANT_WRITE := fun x hx => hpre x (by simp [hx])
    have hneg : ¬ r > 0 := by
      rcases hr with h | h <;> simp [h, MBEDTLS_ERR_SSL_WANT_READ,
        MBEDTLS_ERR_SSL_WANT_WRITE]
    simp only [List.cons_append, sendLoop, if_neg hneg, if_pos hr]
    exact ih hrest

theorem closeNotifyRun_stops (f : Nat → Int) :
    ∀ n i, isWouldBlock (f (i + n)) = false →
      (closeNotifyRun f i (n + 1)).isSome = true := by
  intro n
  induction n with
  | zero =>
    intro i h
    simp only [Nat.add_zero] at h
    simp only [closeNotifyRun]
    split
    · simp
    · rw [h]; simp
  | succ n ih =>
    intro i h
    simp only [closeNotifyRun]
    split
    · simp
    · split
      · apply ih (i + 1)
        have : i + 1 + n = i + (n + 1) := by omega
        rw [this]
        exact h
      · simp

theorem closeNotifyRun_result (f : Nat → Int) :
    ∀ fuel i r, closeNotifyRun f i fuel = some r →
      r = 0 ∨ isWouldBlock r = false := by
  intro fuel
  induction fuel with
  | zero => intro i r h; simp [closeNotifyRun] at h
  | succ fuel ih =>
    intro i r h
    simp only [closeNotifyRun] at h
    split at h
    · left
      exact (Option.some_inj.mp h).symm
    · split at h
      · exact ih (i + 1) r h
      · right
        rw [← Option.some_inj.mp h]
        simp_all

theorem handshakeFinish_fatal (st : Nsd) (r : Int)
    (h : r ≠ 0 ∧ r ≠ MBEDTLS_ERR_SSL_WANT_READ ∧
      r ≠ MBEDTLS_ERR_SSL_WANT_WRITE) :
    handshakeFinish st r = (RS_RET_TLS_HANDSHAKE_ERR, st) := by
  simp only [handshakeFinish, if_pos h]

theorem handshakeFinish_pending_or_ok (st : Nsd) (r : Int)
    (h : ¬ (r ≠ 0 ∧ r ≠ MBEDTLS_ERR_SSL_WANT_READ ∧
      r ≠ MBEDTLS_ERR_SSL_WANT_WRITE)) :
    handshakeFinish st r = (RS_RET_OK, { st with bHaveSess := true }) := by
  simp only [handshakeFinish, if_neg h]

theorem strCaseEq_disjoint (s a b : String)
    (hab : strCaseEq a b = false) (h : strCaseEq s a = true) :
    strCaseEq s b = false := by
  rw [strCaseEq_iff] at h
  cases hc : strCaseEq s b
  · rfl
  · rw [strCaseEq_iff] at hc
    have : strCaseEq a b = true :=
      (strCaseEq_iff a b).mpr (h.symm.trans hc)
    rw [this] at hab
    cases hab

theorem Add_rd_count (st : Nsdsel) (d : Nsd) :
    (Add st d WaitOp.rd).1.iBufferRcvReady =
      st.iBufferRcvReady + (if isBuffered d then 1 else 0) := by
  simp only [Add, isBuffered, decide_eq_true_eq]
  split_ifs <;> simp_all

theorem addAll_count (st : Nsdsel) (ds : List Nsd) :
    (addAll st ds).iBufferRcvReady =
      st.iBufferRcvReady + (ds.filter isBuffered).length := by
  induction ds generalizing st with
  | nil => simp [addAll]
  | cons d ds ih =>
    simp only [addAll, List.foldl_cons] at *
    rw [ih]
    by_cases hb : isBuffered d = true
    · have := Add_rd_count st d
      rw [this, if_pos hb]
      simp [List.filter, hb]
      omega
    · have := Add_rd_count st d
      rw [this, if_neg hb]
      have hb0 : isBuffered d = false := by
        cases h : isBuffered d
        · rfl
        · exact absurd h hb
      simp [List.filter, hb0]

theorem IsReady_rd_buffered_count (st : Nsdsel) (d : Nsd) (pr : Bool)
    (hb : isBuffered d = true) :
    (IsReady st d WaitOp.rd pr).2.1.iBufferRcvReady =
      st.iBufferRcvReady - 1 := by
  simp only [isBuffered, decide_eq_true_eq] at hb
  have hpos : d.sslBytesAvail > 0 := Nat.pos_of_ne_zero hb.2
  simp [IsReady, hb.1, hpos]

theorem drainAll_buffered_count (st : Nsdsel) (ds : List Nsd)
    (h : ∀ d ∈ ds, isBuffered d = true) :
    (drainAll st ds).iBufferRcvReady =
      st.iBufferRcvReady - ds.length := by
  induction ds generalizing st with
  | nil => simp [drainAll]
  | cons d ds ih =>
    simp only [drainAll, List.foldl_cons] at *
    rw [ih _ (fun x hx => h x (by simp [hx]))]
    rw [IsReady_rd_buffered_count st d false (h d (by simp))]
    simp only [List.length_cons]
    push_cast
    omega

/- ----- the claim theorems ----- -/

/-- C1: in TLS mode with the abort flag unset, Rcv maps the mbedtls_ssl_read
outcome as follows: want-read/want-write to RS_RET_RETRY, a peer
close-notify to RS_RET_CLOSED, any other negative result to RS_RET_RCV_ERR,
a zero read to RS_RET_EOF, and a positive n to RS_RET_OK with output length
n; on every outcome other than RS_RET_OK and RS_RET_RETRY the output length
is forced to zero. -/
theorem rcv_tls_outcome_mapping (pThis : Nsd) (pt : Int × Int) (n lenIn : Int)
    (hm : pThis.iMode = 1) (ha : pThis.bAbortConn = false) :
    ((n = MBEDTLS_ERR_SSL_WANT_READ ∨ n = MBEDTLS_ERR_SSL_WANT_WRITE) →
      Rcv pThis pt n lenIn = (RS_RET_RETRY, lenIn)) ∧
    (n = MBEDTLS_ERR_SSL_PEER_CLOSE_NOTIFY →
      Rcv pThis pt n lenIn = (RS_RET_CLOSED, 0)) ∧
    (n < 0 → n ≠ MBEDTLS_ERR_SSL_WANT_READ → n ≠ MBEDTLS_ERR_SSL_WANT_WRITE →
      n ≠ MBEDTLS_ERR_SSL_PEER_CLOSE_NOTIFY →
      Rcv pThis pt n lenIn = (RS_RET_RCV_ERR, 0)) ∧
    (n = 0 → Rcv pThis pt n lenIn = (RS_RET_EOF, 0)) ∧
    (0 < n → Rcv pThis pt n lenIn = (RS_RET_OK, n)) ∧
    ((Rcv pThis pt n lenIn).1 ≠ RS_RET_OK →
      (Rcv pThis pt n lenIn).1 ≠ RS_RET_RETRY →
      (Rcv pThis pt n lenIn).2 = 0) := by
  simp only [Rcv, hm, ha, MBEDTLS_ERR_SSL_WANT_READ, MBEDTLS_ERR_SSL_WANT_WRITE,
    MBEDTLS_ERR_SSL_PEER_CLOSE_NOTIFY, RS_RET_OK, RS_RET_RETRY, RS_RET_CLOSED,
    RS_RET_EOF, RS_RET_RCV_ERR, RS_RET_CONNECTION_ABORTREQ]
  norm_num
  split_ifs <;> simp_all <;> omega

/-- Witness for C1: a successful 5-byte TLS read on a fresh TLS-mode
driver. -/
theorem rcv_tls_outcome_mapping_witness :
    Rcv tlsDriver (0, 0) 5 100 = (RS_RET_OK, 5) :=
  (rcv_tls_outcome_mapping tlsDriver (0, 0) 5 100 rfl rfl).2.2.2.2.1
    (by norm_num)

/-- C2: IsReady takes the buffered-bytes shortcut (ready, counter down by
one, nested multiplexer not consulted) for a TLS-mode driver queried for
read with buffered decrypted bytes; otherwise it reports not-ready without
consulting the nested multiplexer while the counter is nonzero, and
delegates to the nested readiness check only when the counter is zero.
Consequently a polling round that registers any list of drivers and then
drains every buffered one brings the counter back to zero. -/
theorem isready_case_split_and_drain (pThis : Nsdsel) (d : Nsd)
    (w : WaitOp) (pr : Bool) :
    (d.iMode = 1 → w = WaitOp.rd → 0 < d.sslBytesAvail →
      IsReady pThis d w pr =
        (true, ⟨pThis.iBufferRcvReady - 1⟩, false)) ∧
    (¬ (d.iMode = 1 ∧ w = WaitOp.rd ∧ 0 < d.sslBytesAvail) →
      pThis.iBufferRcvReady ≠ 0 →
      IsReady pThis d w pr = (false, pThis, false)) ∧
    (¬ (d.iMode = 1 ∧ w = WaitOp.rd ∧ 0 < d.sslBytesAvail) →
      pThis.iBufferRcvReady = 0 →
      IsReady pThis d w pr = (pr, pThis, true)) ∧
    (∀ ds : List Nsd,
      (drainAll (addAll ⟨0⟩ ds) (ds.filter isBuffered)).iBufferRcvReady = 0) := by
  refine ⟨?_, ?_, ?_, ?_⟩
  · intro h1 h2 h3
    simp [IsReady, h1, h2, h3]
  · intro h h0
    simp [IsReady, h, h0]
  · intro h h0
    simp [IsReady, h, h0]
  · intro ds
    have h1 := addAll_count ⟨0⟩ ds
    have h2 := drainAll_buffered_count (addAll ⟨0⟩ ds) (ds.filter isBuffered)
      (fun x hx => (List.mem_filter.mp hx).2)
    rw [h2, h1]
    simp

/-- Witness for C2: one buffered TLS driver registered and drained. -/
theorem isready_case_split_and_drain_witness :
    IsReady ⟨1⟩ { tlsDriver with sslBytesAvail := 3 } WaitOp.rd false =
      (true, ⟨0⟩, false) := by
  have h := isready_case_split_and_drain ⟨1⟩
    { tlsDriver with sslBytesAvail := 3 } WaitOp.rd false
  have := h.1 rfl rfl (by norm_num)
  simpa using this

/-- C3: Select returns the buffered-ready count immediately, without
invoking the nested multiplexer's OS wait, whenever that count is positive,
and otherwise delegates to the nested wait and returns its result. -/
theorem select_buffered_shortcut (pThis : Nsdsel) (pt : Int × Int) :
    (0 < pThis.iBufferRcvReady →
      Select pThis pt = (RS_RET_OK, pThis.iBufferRcvReady, false)) ∧
    (pThis.iBufferRcvReady = 0 →
      Select pThis pt = (pt.1, pt.2, true)) := by
  constructor
  · intro h
    simp [Select, h]
  · intro h
    simp [Select, h]

/-- Witness for C3: two buffered drivers short-circuit the wait; a zero
counter delegates. -/
theorem select_buffered_shortcut_witness :
    Select ⟨2⟩ (RS_RET_OK, 9) = (RS_RET_OK, 2, false) ∧
    Select ⟨0⟩ (RS_RET_OK, 9) = (RS_RET_OK, 9, true) :=
  ⟨(select_buffered_shortcut ⟨2⟩ (RS_RET_OK, 9)).1 (by norm_num),
   (select_buffered_shortcut ⟨0⟩ (RS_RET_OK, 9)).2 rfl⟩

/-- C4 counterexample: the claim that a failing SetAuthMode leaves the
name-check flag unchanged is false.  On a driver configured for x509/name
authentication (verification required, name check on), SetAuthMode with
the unsupported string "tls" fails with RS_RET_VALUE_NOT_SUPPORTED, leaves
the verification-policy field alone, but clears the name-check flag that
was previously set: the C code zeroes bChkName before validating the
string. -/
theorem setauthmode_unsupported_clears_chkname_cex :
    (SetAuthMode nameCheckDriver (some "tls")).1 = RS_RET_VALUE_NOT_SUPPORTED ∧
    nameCheckDriver.bChkName = true ∧
    (SetAuthMode nameCheckDriver (some "tls")).2.bChkName = false ∧
    (SetAuthMode nameCheckDriver (some "tls")).2.authMode =
      nameCheckDriver.authMode := by
  refine ⟨by decide, by decide, by decide, by decide⟩

/-- C4 (amended): for every mode string that case-insensitively matches
none of x509/name, x509/certvalid and anon, SetAuthMode fails with
RS_RET_VALUE_NOT_SUPPORTED and leaves the verification-policy field
unchanged, but unconditionally resets the name-check flag to false. -/
theorem setauthmode_unsupported_rejected (pThis : Nsd) (m : String)
    (h1 : strCaseEq m "x509/name" = false)
    (h2 : strCaseEq m "x509/certvalid" = false)
    (h3 : strCaseEq m "anon" = false) :
    SetAuthMode pThis (some m) =
      (RS_RET_VALUE_NOT_SUPPORTED, { pThis with bChkName := false }) := by
  simp [SetAuthMode, h1, h2, h3]

/-- Witness for C4 (amended): the unsupported string "tls" on a fresh
driver. -/
theorem setauthmode_unsupported_rejected_witness :
    SetAuthMode freshNsd (some "tls") =
      (RS_RET_VALUE_NOT_SUPPORTED, freshNsd) :=
  setauthmode_unsupported_rejected freshNsd "tls"
    (by decide) (by decide) (by decide)

/-- C5: in TLS mode with the abort flag unset, Send keeps retrying the
mbedtls_ssl_write call across any run of want-read/want-write outcomes,
returns RS_RET_OK with the first non-blocking positive write count as the
bytes-written output, and on any other negative outcome fails with that
outcome as a fatal (nonzero) return code, leaving the length output at its
entry value. -/
theorem send_tls_retry_then_first_result (pThis : Nsd) (pt : Int × Int)
    (pre rest : List Int) (n c lenIn : Int)
    (hm : pThis.iMode = 1) (ha : pThis.bAbortConn = false)
    (hpre : ∀ r ∈ pre, r = MBEDTLS_ERR_SSL_WANT_READ ∨
      r = MBEDTLS_ERR_SSL_WANT_WRITE) :
    (0 < n →
      Send pThis pt (pre ++ n :: rest) lenIn = some (RS_RET_OK, n)) ∧
    (c < 0 → c ≠ MBEDTLS_ERR_SSL_WANT_READ → c ≠ MBEDTLS_ERR_SSL_WANT_WRITE →
      Send pThis pt (pre ++ c :: rest) lenIn = some (c, lenIn) ∧
      c ≠ RS_RET_OK) := by
  have hmode : ¬ pThis.iMode = 0 := by rw [hm]; norm_num
  constructor
  · intro hn
    simp only [Send, ha, if_neg, hmode]
    rw [sendLoop_wouldblock_skip pre (n :: rest) hpre]
    simp [sendLoop, hn]
  · intro hc hc1 hc2
    constructor
    · simp only [Send, ha, if_neg, hmode]
      rw [sendLoop_wouldblock_skip pre (c :: rest) hpre]
      have hcn : ¬ c > 0 := by omega
      have hcw : ¬ (c = MBEDTLS_ERR_SSL_WANT_READ ∨
          c = MBEDTLS_ERR_SSL_WANT_WRITE) := by
        intro h
        cases h <;> simp_all
      simp [sendLoop, hcn, hcw]
    · simp only [RS_RET_OK]
      omega

/-- Witness for C5: two would-block rounds then a 7-byte write succeed;
two would-block rounds then a decrypt error fail with that code. -/
theorem send_tls_retry_then_first_result_witness :
    Send tlsDriver (0, 0)
      [MBEDTLS_ERR_SSL_WANT_READ, MBEDTLS_ERR_SSL_WANT_WRITE, 7] 100 =
      some (RS_RET_OK, 7) ∧
    Send tlsDriver (0, 0)
      [MBEDTLS_ERR_SSL_WANT_READ, -29056] 100 = some (-29056, 100) := by
  constructor
  · exact (send_tls_retry_then_first_result tlsDriver (0, 0)
      [MBEDTLS_ERR_SSL_WANT_READ, MBEDTLS_ERR_SSL_WANT_WRITE] [] 7 0 100
      rfl rfl (by decide)).1 (by norm_num)
  · exact ((send_tls_retry_then_first_result tlsDriver (0, 0)
      [MBEDTLS_ERR_SSL_WANT_READ] [] 0 (-29056) 100
      rfl rfl (by decide)).2 (by norm_num) (by decide) (by decide)).1

/-- C6: in TLS mode, with every step before the handshake succeeding,
Connect and AcceptConnReq return RS_RET_TLS_HANDSHAKE_ERR exactly when the
mbedtls_ssl_handshake outcome is neither 0 nor one of the two pending
codes; in that case the connect is aborted with bHaveSess still false and
the accept hands out no driver, while on a success or pending outcome the
resulting driver has bHaveSess true. -/
theorem handshake_error_exactly_on_fatal_outcome (pThis : Nsd)
    (env : ConnectEnv) (aenv : AcceptEnv)
    (hm : pThis.iMode = 1) (hs : pThis.bHaveSess = false)
    (e1 : env.initSessionRet = 0) (e2 : env.initCredRet = 0)
    (e3 : env.ptcpConnectRet = 0) (e4 : env.configDefaultsRet = 0)
    (e5 : env.confOwnCertRet = 0) (e6 : env.sslSetupRet = 0)
    (e7 : env.setHostnameRet = 0) (e8 : env.getSockRet = 0)
    (a1 : aenv.constructRet = 0) (a2 : aenv.ptcpDestructRet = 0)
    (a3 : aenv.ptcpAcceptRet = 0)
    (a4 : aenv.strdupPermPeerOk = true) (a5 : aenv.strdupCertOk = true)
    (a6 : aenv.strdupKeyOk = true) (a7 : aenv.strdupCAOk = true)
    (a8 : aenv.strdupCRLOk = true)
    (a9 : aenv.initSessionRet = 0) (a10 : aenv.initCredRet = 0)
    (a11 : aenv.configDefaultsRet = 0) (a12 : aenv.confOwnCertRet = 0)
    (a13 : aenv.sslSetupRet = 0) (a14 : aenv.setHostnameRet = 0)
    (a15 : aenv.getSockRet = 0) :
    ((Connect pThis env).1 = RS_RET_TLS_HANDSHAKE_ERR ↔
      (env.handshakeRet ≠ 0 ∧
       env.handshakeRet ≠ MBEDTLS_ERR_SSL_WANT_READ ∧
       env.handshakeRet ≠ MBEDTLS_ERR_SSL_WANT_WRITE)) ∧
    ((Connect pThis env).1 = RS_RET_TLS_HANDSHAKE_ERR →
      (Connect pThis env).2.bHaveSess = false) ∧
    ((Connect pThis env).1 ≠ RS_RET_TLS_HANDSHAKE_ERR →
      (Connect pThis env).1 = RS_RET_OK ∧
      (Connect pThis env).2.bHaveSess = true) ∧
    ((AcceptConnReq pThis aenv).iRet = RS_RET_TLS_HANDSHAKE_ERR ↔
      (aenv.handshakeRet ≠ 0 ∧
       aenv.handshakeRet ≠ MBEDTLS_ERR_SSL_WANT_READ ∧
       aenv.handshakeRet ≠ MBEDTLS_ERR_SSL_WANT_WRITE)) ∧
    ((AcceptConnReq pThis aenv).iRet = RS_RET_TLS_HANDSHAKE_ERR →
      (AcceptConnReq pThis aenv).assigned = none) ∧
    ((AcceptConnReq pThis aenv).iRet ≠ RS_RET_TLS_HANDSHAKE_ERR →
      (AcceptConnReq pThis aenv).assigned =
        some { acceptCopyProps pThis with bHaveSess := true }) := by
  have hmode : ¬ pThis.iMode = 0 := by rw [hm]; norm_num
  have hC : Connect pThis env = handshakeFinish pThis env.handshakeRet := by
    simp [Connect, e1, e2, e3, e4, e5, e6, e7, e8, hmode]
  have hA : AcceptConnReq pThis aenv =
      (if aenv.handshakeRet ≠ 0 ∧
          aenv.handshakeRet ≠ MBEDTLS_ERR_SSL_WANT_READ ∧
          aenv.handshakeRet ≠ MBEDTLS_ERR_SSL_WANT_WRITE then
        ⟨RS_RET_TLS_HANDSHAKE_ERR, none, true⟩
      else
        ⟨RS_RET_OK, some { acceptCopyProps pThis with bHaveSess := true },
          false⟩) := by
    unfold AcceptConnReq
    rw [if_neg (by simp [a1]), if_neg (by simp [a2]), if_neg (by simp [a3]),
      if_neg hmode, if_neg (by simp [a4]), if_neg (by simp [a5]),
      if_neg (by simp [a6]), if_neg (by simp [a7]), if_neg (by simp [a8]),
      if_neg (by simp [a9]), if_neg (by simp [a10]), if_neg (by simp [a11]),
      if_neg (by simp [a12]), if_neg (by simp [a13]), if_neg (by simp [a14]),
      if_neg (by simp [a15])]
  rw [hC, hA]
  by_cases hbC : env.handshakeRet ≠ 0 ∧
      env.handshakeRet ≠ MBEDTLS_ERR_SSL_WANT_READ ∧
      env.handshakeRet ≠ MBEDTLS_ERR_SSL_WANT_WRITE <;>
    by_cases hbA : aenv.handshakeRet ≠ 0 ∧
        aenv.handshakeRet ≠ MBEDTLS_ERR_SSL_WANT_READ ∧
        aenv.handshakeRet ≠ MBEDTLS_ERR_SSL_WANT_WRITE
  · rw [handshakeFinish_fatal _ _ hbC, if_pos hbA]
    refine ⟨?_, ?_, ?_, ?_, ?_, ?_⟩ <;>
      simp_all [RS_RET_OK, RS_RET_TLS_HANDSHAKE_ERR] <;> tauto
  · rw [handshakeFinish_fatal _ _ hbC, if_neg hbA]
    refine ⟨?_, ?_, ?_, ?_, ?_, ?_⟩ <;>
      simp_all [RS_RET_OK, RS_RET_TLS_HANDSHAKE_ERR] <;> tauto
  · rw [handshakeFinish_pending_or_ok _ _ hbC, if_pos hbA]
    refine ⟨?_, ?_, ?_, ?_, ?_, ?_⟩ <;>
      simp_all [RS_RET_OK, RS_RET_TLS_HANDSHAKE_ERR] <;> tauto
  · rw [handshakeFinish_pending_or_ok _ _ hbC, if_neg hbA]
    refine ⟨?_, ?_, ?_, ?_, ?_, ?_⟩ <;>
      simp_all [RS_RET_OK, RS_RET_TLS_HANDSHAKE_ERR] <;> tauto

/-- Witness for C6: a handshake that returns the fatal alert code -30592
yields RS_RET_TLS_HANDSHAKE_ERR from Connect with no session. -/
theorem handshake_error_exactly_on_fatal_outcome_witness :
    (Connect tlsDriver connectEnvFatalHs).1 = RS_RET_TLS_HANDSHAKE_ERR := by
  have h := handshake_error_exactly_on_fatal_outcome tlsDriver
    connectEnvFatalHs acceptEnvAllOk
    rfl rfl rfl rfl rfl rfl rfl rfl rfl rfl rfl rfl rfl rfl rfl rfl rfl
    rfl rfl rfl rfl rfl rfl rfl rfl
  exact h.1.mpr ⟨by decide, by decide, by decide⟩

/-- C7 counterexample: the claim that the close-notify loop of
mbedtlsEndSess terminates for every sequence of close-notify outcomes is
false; on the stream that always returns want-read, the loop never exits,
whatever number of iterations is observed. -/
theorem close_loop_spins_on_perpetual_wouldblock_cex :
    ¬ closeLoopStops (fun _ => MBEDTLS_ERR_SSL_WANT_READ) := by
  intro h
  obtain ⟨fuel, hf⟩ := h
  have hall : ∀ fuel i,
      closeNotifyRun (fun _ => MBEDTLS_ERR_SSL_WANT_READ) i fuel = none := by
    intro fuel
    induction fuel with
    | zero => intro i; rfl
    | succ fuel ih =>
      intro i
      simp only [closeNotifyRun, isWouldBlock]
      rw [if_neg (by decide), if_pos (by decide)]
      exact ih (i + 1)
  rw [hall fuel 0] at hf
  simp at hf

/-- C7 (amended): the close-notify loop of mbedtlsEndSess retries without
an upper bound while the call reports would-block and abandons the close
on any other outcome, so it terminates precisely for outcome streams that
eventually yield a non-would-block result, and any value it exits on is
either 0 or not a would-block code; afterwards bHaveSess is false, and
destruction releases the nested transport when present, clears every owned
credential-path and peer string, and frees the TLS-library objects. -/
theorem destruct_closes_and_releases (f : Nat → Int) (k : Nat) (pThis : Nsd)
    (hf : isWouldBlock (f k) = false)
    (hsess : pThis.bHaveSess = true → pThis.iMode = 1) :
    closeLoopStops f ∧
    (∀ fuel r, closeNotifyRun f 0 fuel = some r →
      r = 0 ∨ isWouldBlock r = false) ∧
    (mbedtlsEndSess pThis).bHaveSess = false ∧
    (nsd_mbedtlsDestruct pThis).final.bHaveSess = false ∧
    (nsd_mbedtlsDestruct pThis).final.pTcpPresent = false ∧
    (nsd_mbedtlsDestruct pThis).final.pszCAFile = none ∧
    (nsd_mbedtlsDestruct pThis).final.pszCRLFile = none ∧
    (nsd_mbedtlsDestruct pThis).final.pszKeyFile = none ∧
    (nsd_mbedtlsDestruct pThis).final.pszCertFile = none ∧
    (nsd_mbedtlsDestruct pThis).final.pPermPeer = none ∧
    (nsd_mbedtlsDestruct pThis).tcpDestroyed = pThis.pTcpPresent ∧
    (nsd_mbedtlsDestruct pThis).tlsObjectsFreed = true := by
  have hstops : closeLoopStops f :=
    ⟨k + 1, closeNotifyRun_stops f k 0 (by simpa using hf)⟩
  have hend : (mbedtlsEndSess pThis).bHaveSess = false := by
    simp only [mbedtlsEndSess]
    split <;> simp_all
  have hfinal : (nsd_mbedtlsDestruct pThis).final.bHaveSess = false := by
    simp only [nsd_mbedtlsDestruct]
    by_cases h1 : pThis.iMode = 1
    · simp [h1, hend]
    · have h2 : pThis.bHaveSess = false := by
        cases h : pThis.bHaveSess
        · rfl
        · exact absurd (hsess h) h1
      simp [h1, h2]
  refine ⟨hstops, fun fuel r h => closeNotifyRun_result f fuel 0 r h,
    hend, hfinal, ?_, ?_, ?_, ?_, ?_, ?_, ?_, ?_⟩ <;>
    simp [nsd_mbedtlsDestruct]

/-- Witness for C7 (amended): a close-notify stream that would-blocks twice
and then succeeds, on a TLS driver with an active session. -/
theorem destruct_closes_and_releases_witness :
    closeLoopStops
      (fun i => if i < 2 then MBEDTLS_ERR_SSL_WANT_READ else 0) ∧
    (nsd_mbedtlsDestruct { tlsDriver with bHaveSess := true
      }).final.bHaveSess = false := by
  have h := destruct_closes_and_releases
    (fun i => if i < 2 then MBEDTLS_ERR_SSL_WANT_READ else 0) 2
    { tlsDriver with bHaveSess := true } (by decide) (fun _ => rfl)
  exact ⟨h.1, h.2.2.2.1⟩

theorem acceptConnReq_outcome_dichotomy (pThis : Nsd) (env : AcceptEnv)
    (hm : pThis.iMode = 1) (h0 : env.constructRet = 0)
    (h1 : env.ptcpDestructRet = 0) (h2 : env.ptcpAcceptRet = 0) :
    (∃ c, AcceptConnReq pThis env = ⟨c, none, true⟩ ∧ c ≠ RS_RET_OK) ∨
    AcceptConnReq pThis env =
      ⟨RS_RET_OK, some { acceptCopyProps pThis with bHaveSess := true },
        false⟩ := by
  have hmode : ¬ pThis.iMode = 0 := by rw [hm]; norm_num
  have key : ∀ r, AcceptConnReq pThis env = r →
      (∃ c, r = ⟨c, none, true⟩ ∧ c ≠ RS_RET_OK) ∨
      r = ⟨RS_RET_OK,
        some { acceptCopyProps pThis with bHaveSess := true }, false⟩ := by
    intro r hr
    unfold AcceptConnReq at hr
    rw [h0, h1, h2, hm] at hr
    have hz : ¬ (0:Int) ≠ 0 := by norm_num
    have ho : ¬ (1:Int) = 0 := by norm_num
    rw [if_neg hz, if_neg hz, if_neg hz, if_neg ho] at hr
    by_cases c1 : pThis.pPermPeer.isSome ∧ ¬ env.strdupPermPeerOk
    · rw [if_pos c1] at hr
      exact Or.inl ⟨_, hr.symm, by decide⟩
    rw [if_neg c1] at hr
    by_cases c2 : pThis.pszCertFile.isSome ∧ ¬ env.strdupCertOk
    · rw [if_pos c2] at hr
      exact Or.inl ⟨_, hr.symm, by decide⟩
    rw [if_neg c2] at hr
    by_cases c3 : pThis.pszKeyFile.isSome ∧ ¬ env.strdupKeyOk
    · rw [if_pos c3] at hr
      exact Or.inl ⟨_, hr.symm, by decide⟩
    rw [if_neg c3] at hr
    by_cases c4 : pThis.pszCAFile.isSome ∧ ¬ env.strdupCAOk
    · rw [if_pos c4] at hr
      exact Or.inl ⟨_, hr.symm, by decide⟩
    rw [if_neg c4] at hr
    by_cases c5 : pThis.pszCRLFile.isSome ∧ ¬ env.strdupCRLOk
    · rw [if_pos c5] at hr
      exact Or.inl ⟨_, hr.symm, by decide⟩
    rw [if_neg c5] at hr
    by_cases c6 : env.initSessionRet ≠ 0
    · rw [if_pos c6] at hr
      exact Or.inl ⟨_, hr.symm, c6⟩
    rw [if_neg c6] at hr
    by_cases c7 : env.initCredRet ≠ 0
    · rw [if_pos c7] at hr
      exact Or.inl ⟨_, hr.symm, c7⟩
    rw [if_neg c7] at hr
    by_cases c8 : env.configDefaultsRet ≠ 0
    · rw [if_pos c8] at hr
      exact Or.inl ⟨_, hr.symm, c8⟩
    rw [if_neg c8] at hr
    by_cases c9 : env.haveKeyCert ∧ env.confOwnCertRet ≠ 0
    · rw [if_pos c9] at hr
      exact Or.inl ⟨_, hr.symm, c9.2⟩
    rw [if_neg c9] at hr
    by_cases c10 : env.sslSetupRet ≠ 0
    · rw [if_pos c10] at hr
      exact Or.inl ⟨_, hr.symm, c10⟩
    rw [if_neg c10] at hr
    by_cases c11 : env.setHostnameRet ≠ 0
    · rw [if_pos c11] at hr
      exact Or.inl ⟨_, hr.symm, c11⟩
    rw [if_neg c11] at hr
    by_cases c12 : env.getSockRet ≠ 0
    · rw [if_pos c12] at hr
      exact Or.inl ⟨_, hr.symm, c12⟩
    rw [if_neg c12] at hr
    by_cases c13 : env.handshakeRet ≠ 0 ∧
        env.handshakeRet ≠ MBEDTLS_ERR_SSL_WANT_READ ∧
        env.handshakeRet ≠ MBEDTLS_ERR_SSL_WANT_WRITE
    · rw [if_pos c13] at hr
      exact Or.inl ⟨_, hr.symm, by decide⟩
    rw [if_neg c13] at hr
    exact Or.inr hr.symm
  exact key (AcceptConnReq pThis env) rfl

/-- C8: for a TLS-mode listener whose accept gets past the initial
construct/replace-transport steps, every failing step (property copying,
credential parsing, session setup or handshake) makes AcceptConnReq
destroy the partially built new driver and return the error with the
caller's output pointer never assigned; a driver object is handed out
exactly on full success. -/
theorem accept_failure_destroys_partial_driver (pThis : Nsd)
    (env : AcceptEnv) (hm : pThis.iMode = 1)
    (h0 : env.constructRet = 0) (h1 : env.ptcpDestructRet = 0)
    (h2 : env.ptcpAcceptRet = 0) :
    ((AcceptConnReq pThis env).iRet ≠ RS_RET_OK →
      (AcceptConnReq pThis env).assigned = none ∧
      (AcceptConnReq pThis env).newDestroyed = true) ∧
    ((AcceptConnReq pThis env).iRet = RS_RET_OK →
      ((AcceptConnReq pThis env).assigned).isSome = true ∧
      (AcceptConnReq pThis env).newDestroyed = false) := by
  rcases acceptConnReq_outcome_dichotomy pThis env hm h0 h1 h2 with
    ⟨c, hEq, hc⟩ | hEq <;> rw [hEq] <;> constructor <;> intro hr <;> simp_all

/-- Witness for C8: an accept whose credential parsing fails destroys the
new driver and assigns nothing. -/
theorem accept_failure_destroys_partial_driver_witness :
    (AcceptConnReq tlsDriver acceptEnvBadCred).assigned = none ∧
    (AcceptConnReq tlsDriver acceptEnvBadCred).newDestroyed = true := by
  have h := accept_failure_destroys_partial_driver tlsDriver acceptEnvBadCred
    rfl rfl rfl rfl
  exact h.1 (by decide)

/-- C9 counterexample: the claim that a TLS-mode abort is handled by
setting the abort flag (so that subsequent Rcv fails fast with
ConnectionAbortRequested) is false: on a TLS-mode driver, Abort leaves the
abort flag unset (it performs no action at all), and a subsequent Rcv with
a successful 5-byte read returns RS_RET_OK, not
RS_RET_CONNECTION_ABORTREQ. -/
theorem abort_tls_mode_is_noop_cex :
    tlsDriver.iMode = 1 ∧
    tlsDriver.bAbortConn = false ∧
    (Abort tlsDriver).1.bAbortConn = false ∧
    (Abort tlsDriver).2 = false ∧
    Rcv (Abort tlsDriver).1 (0, 0) 5 100 = (RS_RET_OK, 5) := by
  refine ⟨by decide, by decide, by decide, by decide, by decide⟩

/-- C9 (amended): Abort forwards to the nested plaintext transport only in
plaintext mode; in TLS mode it performs no action and in particular does
not set the abort flag, which is set externally.  Whenever the abort flag
is set, every Rcv and Send call fails fast with
RS_RET_CONNECTION_ABORTREQ, independently of any network outcome. -/
theorem abort_forwards_only_in_plaintext (pThis : Nsd) (pt : Int × Int)
    (wr : List Int) (n lenIn : Int) :
    (pThis.iMode = 0 → Abort pThis = (pThis, true)) ∧
    (pThis.iMode ≠ 0 → Abort pThis = (pThis, false)) ∧
    (pThis.bAbortConn = true →
      Rcv pThis pt n lenIn = (RS_RET_CONNECTION_ABORTREQ, 0) ∧
      Send pThis pt wr lenIn = some (RS_RET_CONNECTION_ABORTREQ, lenIn)) := by
  refine ⟨?_, ?_, ?_⟩
  · intro h
    simp [Abort, h]
  · intro h
    simp [Abort, h]
  · intro h
    constructor
    · simp [Rcv, h, RS_RET_CONNECTION_ABORTREQ, RS_RET_OK, RS_RET_RETRY]
    · simp [Send, h]

/-- Witness for C9 (amended): a plaintext driver forwards; a TLS driver
with the abort flag set fails Rcv fast. -/
theorem abort_forwards_only_in_plaintext_witness :
    Abort freshNsd = (freshNsd, true) ∧
    Rcv { tlsDriver with bAbortConn := true } (0, 0) 5 100 =
      (RS_RET_CONNECTION_ABORTREQ, 0) := by
  constructor
  · exact (abort_forwards_only_in_plaintext freshNsd (0, 0) [] 5 100).1 rfl
  · exact ((abort_forwards_only_in_plaintext
      { tlsDriver with bAbortConn := true } (0, 0) [] 5 100).2.2 rfl).1

/-- C10: SetAuthMode and SetPermitExpiredCerts match their option strings
case-insensitively: any string that case-insensitively equals x509/name,
x509/certvalid or anon makes SetAuthMode behave exactly as on the
lowercase form (which succeeds), and any case variant of off makes
SetPermitExpiredCerts succeed with the driver unchanged. -/
theorem setters_match_case_insensitively (pThis : Nsd) (s : String) :
    (strCaseEq s "x509/name" = true →
      SetAuthMode pThis (some s) = SetAuthMode pThis (some "x509/name")) ∧
    (strCaseEq s "x509/certvalid" = true →
      SetAuthMode pThis (some s) =
        SetAuthMode pThis (some "x509/certvalid")) ∧
    (strCaseEq s "anon" = true →
      SetAuthMode pThis (some s) = SetAuthMode pThis (some "anon")) ∧
    (strCaseEq s "off" = true →
      SetPermitExpiredCerts pThis (some s) = (RS_RET_OK, pThis)) ∧
    (SetAuthMode pThis (some "x509/name")).1 = RS_RET_OK ∧
    (SetAuthMode pThis (some "x509/certvalid")).1 = RS_RET_OK ∧
    (SetAuthMode pThis (some "anon")).1 = RS_RET_OK := by
  refine ⟨?_, ?_, ?_, ?_, ?_, ?_, ?_⟩
  · intro h
    simp [SetAuthMode, h, (by decide : strCaseEq "x509/name" "x509/name" = true)]
  · intro h
    have hn := strCaseEq_disjoint s "x509/certvalid" "x509/name" (by decide) h
    simp [SetAuthMode, h, hn,
      (by decide : strCaseEq "x509/certvalid" "x509/name" = false),
      (by decide : strCaseEq "x509/certvalid" "x509/certvalid" = true)]
  · intro h
    have hn := strCaseEq_disjoint s "anon" "x509/name" (by decide) h
    have hc := strCaseEq_disjoint s "anon" "x509/certvalid" (by decide) h
    simp [SetAuthMode, h, hn, hc,
      (by decide : strCaseEq "anon" "x509/name" = false),
      (by decide : strCaseEq "anon" "x509/certvalid" = false),
      (by decide : strCaseEq "anon" "anon" = true)]
  · intro h
    simp [SetPermitExpiredCerts, h]
  · simp [SetAuthMode, (by decide : strCaseEq "x509/name" "x509/name" = true)]
  · simp [SetAuthMode,
      (by decide : strCaseEq "x509/certvalid" "x509/name" = false),
      (by decide : strCaseEq "x509/certvalid" "x509/certvalid" = true)]
  · simp [SetAuthMode,
      (by decide : strCaseEq "anon" "x509/name" = false),
      (by decide : strCaseEq "anon" "x509/certvalid" = false),
      (by decide : strCaseEq "anon" "anon" = true)]

/-- Witness for C10: the upper-case variants are accepted with the same
effect as the lowercase forms. -/
theorem setters_match_case_insensitively_witness :
    SetAuthMode freshNsd (some "X509/NAME") =
      SetAuthMode freshNsd (some "x509/name") ∧
    SetAuthMode freshNsd (some "Anon") = SetAuthMode freshNsd (some "anon") ∧
    SetPermitExpiredCerts freshNsd (some "OFF") = (RS_RET_OK, freshNsd) := by
  refine ⟨?_, ?_, ?_⟩
  · exact (setters_match_case_insensitively freshNsd "X509/NAME").1 (by decide)
  · exact (setters_match_case_insensitively freshNsd "Anon").2.2.1 (by decide)
  · exact (setters_match_case_insensitively freshNsd "OFF").2.2.2.1 (by decide)

end NsdMbedtls
